import Mathlib

/-!
# Verification of the Playlix calendar backend (src/index.js)

Shallow embedding of the Express backend in `src/index.js`:

* JS string truthiness and the `||` projection used on event times;
* the date-string handling of the handlers: the naive-pattern regex test
  (`/^\d{4}-\d{2}-\d{2}T\d{2}:\d{2}:\d{2}$/`), the `-03:00` normalization,
  `new Date(...)` parsing (ISO date-only, naive, `Z` and `±HH:MM` forms) and
  `setHours` on the server's local clock (modelled as a fixed UTC offset in
  minutes, positive east);
* `loadTokens` over an environment record (env var and token file);
* the `/api/availability` and `/api/schedule` handlers as pure functions of the
  request, the environment, the currently installed credentials and an oracle
  for the gateway's responses; each outcome records the list of Calendar
  Gateway calls that were issued.

Timestamps are milliseconds since the Unix epoch (`Int`); `toISOString` is an
injective rendering, so gateway-call arguments are kept as epoch values.
-/

namespace Playlix

/-- JS truthiness for an optional string: `undefined`/`null` and `""` are falsy. -/
def falsy : Option String → Bool
  | none => true
  | some s => s == ""

/-- JS `a || b` on optional strings (used for `event.start.dateTime || event.start.date`). -/
def jsOr (a b : Option String) : Option String :=
  if falsy a then b else a

/-! ## Character-level utilities for the date-string patterns -/

/-- Character of `l` at position `i` (space when out of range). -/
def getC (l : List Char) (i : Nat) : Char := l.getD i ' '

/-- Numeric value of a decimal digit character. -/
def digitVal (c : Char) : Int := (c.toNat : Int) - 48

/-- Two-digit decimal number at positions `i`, `i+1`. -/
def num2 (l : List Char) (i : Nat) : Int :=
  10 * digitVal (getC l i) + digitVal (getC l (i + 1))

/-- Four-digit decimal number at positions `i .. i+3`. -/
def num4 (l : List Char) (i : Nat) : Int :=
  1000 * digitVal (getC l i) + 100 * digitVal (getC l (i + 1)) +
    10 * digitVal (getC l (i + 2)) + digitVal (getC l (i + 3))

/-- All listed positions hold decimal digits. -/
def digitsAt (l : List Char) : List Nat → Bool
  | [] => true
  | i :: is => (getC l i).isDigit && digitsAt l is

/-- Shape `YYYY-MM-DD` (10 characters). -/
def matchesDateOnly (l : List Char) : Bool :=
  decide (l.length = 10) &&
  digitsAt l [0, 1, 2, 3, 5, 6, 8, 9] &&
  (getC l 4 == '-') && (getC l 7 == '-')

/-- The exact shape tested by the regex
`/^\d{4}-\d{2}-\d{2}T\d{2}:\d{2}:\d{2}$/` in the schedule handler:
`YYYY-MM-DDTHH:MM:SS`, 19 characters, no timezone designator. -/
def matchesNaive (l : List Char) : Bool :=
  decide (l.length = 19) &&
  digitsAt l [0, 1, 2, 3, 5, 6, 8, 9, 11, 12, 14, 15, 17, 18] &&
  (getC l 4 == '-') && (getC l 7 == '-') && (getC l 10 == 'T') &&
  (getC l 13 == ':') && (getC l 16 == ':')

/-- Shape `YYYY-MM-DDTHH:MM:SSZ` (20 characters, UTC designator). -/
def matchesNaiveZ (l : List Char) : Bool :=
  decide (l.length = 20) && matchesNaive (l.take 19) && (getC l 19 == 'Z')

/-- Shape `YYYY-MM-DDTHH:MM:SS±HH:MM` (25 characters, explicit UTC offset). -/
def matchesOffsetForm (l : List Char) : Bool :=
  decide (l.length = 25) && matchesNaive (l.take 19) &&
  ((getC l 19 == '+') || (getC l 19 == '-')) &&
  digitsAt l [20, 21, 23, 24] && (getC l 22 == ':')

/-- Month and day fields of a `YYYY-MM-DD...` layout are in calendar range. -/
def dateInRange (l : List Char) : Bool :=
  decide (1 ≤ num2 l 5) && decide (num2 l 5 ≤ 12) &&
  decide (1 ≤ num2 l 8) && decide (num2 l 8 ≤ 31)

/-- Time-of-day fields of the naive layout are in range. -/
def timeInRange (l : List Char) : Bool :=
  decide (num2 l 11 ≤ 23) && decide (num2 l 14 ≤ 59) && decide (num2 l 17 ≤ 59)

/-- UTC-offset fields of the `±HH:MM` suffix are in range. -/
def offsetInRange (l : List Char) : Bool :=
  decide (num2 l 20 ≤ 23) && decide (num2 l 23 ≤ 59)

/-! ## Calendar arithmetic -/

/-- Days from 1970-01-01 to the civil date `y-m-d` (proleptic Gregorian). -/
def daysFromCivil (y m d : Int) : Int :=
  let yAdj : Int := if m ≤ 2 then y - 1 else y
  let era : Int := (if 0 ≤ yAdj then yAdj else yAdj - 399) / 400
  let yoe : Int := yAdj - era * 400
  let mp : Int := (m + 9) % 12
  let doy : Int := (153 * mp + 2) / 5 + d - 1
  let doe : Int := yoe * 365 + yoe / 4 - yoe / 100 + doy
  era * 146097 + doe - 719468

/-- Epoch milliseconds of civil fields read at UTC offset `offMin` minutes
(positive east: local clock = UTC + offset). -/
def fieldsToEpoch (y mo d h mi s ms offMin : Int) : Int :=
  daysFromCivil y mo d * 86400000 + h * 3600000 + mi * 60000 + s * 1000 + ms -
    offMin * 60000

/-- Epoch milliseconds of a naive `YYYY-MM-DDTHH:MM:SS` layout read at offset
`offMin`. -/
def naiveEpochAt (l : List Char) (offMin : Int) : Int :=
  fieldsToEpoch (num4 l 0) (num2 l 5) (num2 l 8) (num2 l 11) (num2 l 14) (num2 l 17)
    0 offMin

/-- Signed offset in minutes denoted by the `±HH:MM` suffix at positions 19–24. -/
def offsetOfL (l : List Char) : Int :=
  let magnitude := 60 * num2 l 20 + num2 l 23
  if getC l 19 == '-' then -magnitude else magnitude

/-- `new Date(string)` on the ISO forms the backend receives, as epoch
milliseconds. Per ECMA-262: a date-only form is read as UTC; a date-time form
without offset is read in the host's local timezone (`serverOffMin`, minutes
east of UTC); `Z` and `±HH:MM` forms carry their own offset. Anything else is
an Invalid Date (`none`). -/
def parseJsDateL (l : List Char) (serverOffMin : Int) : Option Int :=
  if matchesDateOnly l && dateInRange l then
    some (fieldsToEpoch (num4 l 0) (num2 l 5) (num2 l 8) 0 0 0 0 0)
  else if matchesNaive l && dateInRange l && timeInRange l then
    some (naiveEpochAt l serverOffMin)
  else if matchesNaiveZ l && dateInRange l && timeInRange l then
    some (naiveEpochAt l 0)
  else if matchesOffsetForm l && dateInRange l && timeInRange l && offsetInRange l then
    some (naiveEpochAt l (offsetOfL l))
  else none

/-- `new Date(s)` for a string `s`. -/
def parseJsDate (s : String) (serverOffMin : Int) : Option Int :=
  parseJsDateL s.data serverOffMin

/-- JS `Date.prototype.setHours(h, mi, s, ms)` on epoch instant `t` for a host
whose local clock is UTC + `offMin` minutes: the local time-of-day is replaced,
the local civil day is kept. -/
def setHoursLocal (t offMin h mi s ms : Int) : Int :=
  let localMs := t + offMin * 60000
  let dayFloor := localMs - localMs % 86400000
  dayFloor + h * 3600000 + mi * 60000 + s * 1000 + ms - offMin * 60000

/-- The schedule handler's normalization (src/index.js lines 194–197): when the
date string matches the naive regex exactly, append the fixed Sao Paulo offset
`-03:00`; otherwise the string is left unchanged. -/
def normalizeDate (s : String) : String :=
  if matchesNaive s.data then s ++ "-03:00" else s

/-! ## Credential store -/

/-- An OAuth token blob as persisted in `tokens.json` (opaque to the backend). -/
structure Tokens where
  refreshToken : Option String
  accessToken : Option String
deriving DecidableEq, Repr

/-- Credentials installed on the OAuth2 client by `setCredentials`. -/
inductive Creds where
  | envRefresh (refreshToken : String)
  | fileTokens (tokens : Tokens)
deriving DecidableEq, Repr

/-- The parts of the process environment `loadTokens` reads:
`process.env.GOOGLE_REFRESH_TOKEN`, and the token file, where `none` is a
failed read (missing file), `some none` a read whose `JSON.parse` throws
(corrupt file), and `some (some t)` a successful read and parse. -/
structure Env where
  googleRefreshToken : Option String
  tokenFile : Option (Option Tokens)
deriving DecidableEq, Repr

/-- `loadTokens` (src/index.js lines 36–57): prefer the environment refresh
token when it is truthy; otherwise read and parse `tokens.json`, any failure
being caught and reported as `false`. Returns the installed credentials and
the boolean result. -/
def loadTokens (env : Env) : Option Creds × Bool :=
  if falsy env.googleRefreshToken then
    match env.tokenFile with
    | some (some t) => (some (Creds.fileTokens t), true)
    | _ => (none, false)
  else
    (some (Creds.envRefresh (env.googleRefreshToken.getD "")), true)

/-! ## Calendar Gateway model -/

/-- An error thrown by a gateway call (`error.code`, `error.message`). -/
structure ApiError where
  code : Option Nat
  message : String
deriving DecidableEq, Repr

/-- A provider event's `start` or `end` field: all-day events carry `date`,
timed events carry `dateTime`. -/
structure EventTime where
  dateTime : Option String
  date : Option String
deriving DecidableEq, Repr

/-- An event returned by `events.list`. -/
structure ProviderEvent where
  summary : String
  start : EventTime
  endTime : EventTime
deriving DecidableEq, Repr

/-- A slot in the availability response (source fields: start, end, summary). -/
structure BusySlot where
  start : Option String
  endTime : Option String
  summary : String
deriving DecidableEq, Repr

/-- One reminder override. -/
structure Reminder where
  method : String
  minutes : Int
deriving DecidableEq, Repr

/-- The event resource built by the schedule handler (src/index.js 226–253). -/
structure EventResource where
  summary : String
  description : String
  startDateTime : Int
  startTimeZone : String
  endDateTime : Int
  endTimeZone : String
  attendees : List String
  remindersUseDefault : Bool
  remindersOverrides : List Reminder
  conferenceRequestId : String
  conferenceSolutionKeyType : String
deriving DecidableEq, Repr

/-- A call issued to the Calendar Gateway. -/
inductive GatewayCall where
  | eventsList (calendarId : String) (timeMin timeMax : Int) (timeZone : String)
      (singleEvents : Bool) (orderBy : Option String)
  | eventsInsert (calendarId : String) (resource : EventResource)
      (conferenceDataVersion : Nat) (sendUpdates : String)
deriving DecidableEq, Repr

/-- Whether a gateway call is an `events.insert`. -/
def GatewayCall.isInsert : GatewayCall → Bool
  | .eventsInsert _ _ _ _ => true
  | .eventsList _ _ _ _ _ _ => false

/-! ## Availability handler -/

/-- Outcome taxonomy of `GET /api/availability`. -/
inductive AvailResult where
  | missingDate
  | authRequired
  | providerError (message : String)
  | ok (slots : List BusySlot)
deriving DecidableEq, Repr

/-- HTTP status of an availability outcome. -/
def availStatus : AvailResult → Nat
  | .missingDate => 400
  | .authRequired => 401
  | .providerError _ => 500
  | .ok _ => 200

/-- The outcome of a handler run: the response and the gateway calls issued,
plus whether `loadTokens` was re-attempted. -/
structure AvailOutcome where
  result : AvailResult
  calls : List GatewayCall
  triedLoad : Bool
deriving DecidableEq, Repr

/-- The per-event projection of the availability handler (src/index.js
165–171): `dateTime || date` for both ends, summary replaced by the fixed
placeholder. -/
def busySlotOf (e : ProviderEvent) : BusySlot :=
  { start := jsOr e.start.dateTime e.start.date
  , endTime := jsOr e.endTime.dateTime e.endTime.date
  , summary := "Ocupado" }

/-- JS truthiness of `oauth2Client.credentials`. googleapis initializes the
field to the empty object `{}` and `setCredentials` replaces it with a token
object; JS object truthiness does not look at the fields, so the value is
truthy in both states — which makes the handlers' `!oauth2Client.credentials`
guards (src/index.js 130, 200) unreachable. `none` stands for the initial
empty object, `some c` for installed credentials. -/
def credsObjTruthy : Option Creds → Bool
  | none => true
  | some _ => true

/-- The rejection message of the auth library when a gateway call is
attempted with no usable credentials installed. -/
def noAuthMsg : String :=
  "No access, refresh token, API key or refresh handler callback is set."

/-- Lines 138–181 of the availability handler: day-window computation, the
`events.list` call, the response mapping and the catch block. `listResult` is
the gateway's answer to the one `events.list` call (`.ok none` models a
response without an `items` field); a call attempted with no usable
credentials rejects inside the auth library, which is the same
`.error e` shape (message `noAuthMsg`). -/
def availabilityBody (date : String) (serverOffMin : Int)
    (listResult : Except ApiError (Option (List ProviderEvent)))
    (triedLoad : Bool) : AvailOutcome :=
  match parseJsDateL date.data serverOffMin with
  | none =>
      ⟨.providerError ("Error checking availability: " ++ "Invalid time value"),
        [], triedLoad⟩
  | some t =>
      let timeMin := setHoursLocal t serverOffMin 0 0 0 0
      let timeMax := setHoursLocal t serverOffMin 23 59 59 999
      let call := GatewayCall.eventsList "primary" timeMin timeMax
        "America/Sao_Paulo" true (some "startTime")
      match listResult with
      | .error e =>
          ⟨.providerError ("Error checking availability: " ++ e.message),
            [call], triedLoad⟩
      | .ok items =>
          ⟨.ok ((items.getD []).map busySlotOf), [call], triedLoad⟩

/-- `GET /api/availability` (src/index.js 122–182). The auth guard at lines
130–136 is kept with the source's structure — truthiness test, lazy
`loadTokens` retry, re-test, else 401 — but both tests are truthiness tests
of an object (`credsObjTruthy`), so the retry and the 401 answer are
unreachable. -/
def availability (date : Option String) (env : Env) (creds0 : Option Creds)
    (serverOffMin : Int) (listResult : Except ApiError (Option (List ProviderEvent))) :
    AvailOutcome :=
  if falsy date then
    ⟨.missingDate, [], false⟩
  else if credsObjTruthy creds0 then
    availabilityBody (date.getD "") serverOffMin listResult false
  else if credsObjTruthy (loadTokens env).1 then
    availabilityBody (date.getD "") serverOffMin listResult true
  else
    ⟨.authRequired, [], true⟩

/-! ## Schedule handler -/

/-- Body of `POST /api/schedule`. -/
structure ScheduleReq where
  name : Option String
  email : Option String
  date : Option String
deriving DecidableEq, Repr

/-- Outcome taxonomy of `POST /api/schedule`. -/
inductive ScheduleResult where
  | validationError
  | authRequired
  | conflict
  | authExpired
  | providerError (message : String)
  | ok (link : String)
deriving DecidableEq, Repr

/-- HTTP status of a schedule outcome. -/
def scheduleStatus : ScheduleResult → Nat
  | .validationError => 400
  | .authRequired => 401
  | .conflict => 409
  | .authExpired => 401
  | .providerError _ => 500
  | .ok _ => 200

/-- Outcome of a schedule run. -/
structure ScheduleOutcome where
  result : ScheduleResult
  calls : List GatewayCall
  triedLoad : Bool
deriving DecidableEq, Repr

/-- `error.code === 401 || error.message.includes('invalid_grant')`. -/
def startsWithAt : List Char → List Char → Bool
  | [], _ => true
  | _ :: _, [] => false
  | a :: as, b :: bs => a == b && startsWithAt as bs

/-- `needle` occurs contiguously in the second list (JS `String.includes`). -/
def containsSub (needle : List Char) : List Char → Bool
  | [] => startsWithAt needle []
  | b :: bs => startsWithAt needle (b :: bs) || containsSub needle bs

/-- JS `hay.includes(needle)`. -/
def includesStr (hay needle : String) : Bool := containsSub needle.data hay.data

/-- The invalid/expired-grant test of the schedule catch block (line 270). -/
def isInvalidGrant (e : ApiError) : Bool :=
  (e.code == some 401) || includesStr e.message "invalid_grant"

/-- The schedule handler's catch block (src/index.js 268–275). -/
def mapCatch (e : ApiError) : ScheduleResult :=
  if isInvalidGrant e then .authExpired
  else .providerError ("Error contacting Google Calendar: " ++ e.message)

/-- The event resource built for `events.insert` (src/index.js 226–253);
`now` is `Date.now()` used for the conference request id. -/
def buildEvent (name email : String) (startMs endMs now : Int) : EventResource :=
  { summary := "🚀 Demo Playlix: " ++ name
  , description := "Interesse em demonstração da plataforma.\n\nCliente: " ++ name ++
      "\nEmail: " ++ email ++ "\nAgendado via IA Zek."
  , startDateTime := startMs
  , startTimeZone := "America/Sao_Paulo"
  , endDateTime := endMs
  , endTimeZone := "America/Sao_Paulo"
  , attendees := [email]
  , remindersUseDefault := false
  , remindersOverrides := [⟨"email", 24 * 60⟩, ⟨"popup", 10⟩]
  , conferenceRequestId := "meet-" ++ toString now
  , conferenceSolutionKeyType := "hangoutsMeet" }

/-- `conflictCheck.data.items && conflictCheck.data.items.length > 0`. -/
def itemsNonempty : Option (List ProviderEvent) → Bool
  | none => false
  | some l => decide (0 < l.length)

/-- The gateway's answers for one schedule run: the conflict `events.list`
call and the `events.insert` call. -/
structure GatewayOracle where
  listResult : Except ApiError (Option (List ProviderEvent))
  insertResult : Except ApiError String
deriving Repr

/-- Lines 207–275 of the schedule handler: parse, conflict check, event
construction, insert and catch block. A gateway call attempted with no
usable credentials rejects inside the auth library, which is the oracle's
`.error e` shape (message `noAuthMsg`). -/
def scheduleBody (name email dateStr : String) (serverOffMin now : Int)
    (g : GatewayOracle) (triedLoad : Bool) : ScheduleOutcome :=
  match parseJsDateL dateStr.data serverOffMin with
  | none =>
      ⟨.providerError ("Error contacting Google Calendar: " ++ "Invalid time value"),
        [], triedLoad⟩
  | some startMs =>
      let endMs := startMs + 60 * 60 * 1000
      let listCall := GatewayCall.eventsList "primary" startMs endMs
        "America/Sao_Paulo" true none
      match g.listResult with
      | .error e => ⟨mapCatch e, [listCall], triedLoad⟩
      | .ok items =>
          if itemsNonempty items then
            ⟨.conflict, [listCall], triedLoad⟩
          else
            let ev := buildEvent name email startMs endMs now
            let insertCall := GatewayCall.eventsInsert "primary" ev 1 "all"
            match g.insertResult with
            | .error e => ⟨mapCatch e, [listCall, insertCall], triedLoad⟩
            | .ok link => ⟨.ok link, [listCall, insertCall], triedLoad⟩

/-- `POST /api/schedule` (src/index.js 185–276). As in `availability`, the
auth guard at lines 200–205 is kept with the source's structure but is
unreachable, because `oauth2Client.credentials` is an object — truthy — in
every state. -/
def schedule (req : ScheduleReq) (env : Env) (creds0 : Option Creds)
    (serverOffMin now : Int) (g : GatewayOracle) : ScheduleOutcome :=
  if falsy req.name || falsy req.email || falsy req.date then
    ⟨.validationError, [], false⟩
  else
    let dateStr := normalizeDate (req.date.getD "")
    if credsObjTruthy creds0 then
      scheduleBody (req.name.getD "") (req.email.getD "") dateStr serverOffMin now g false
    else if credsObjTruthy (loadTokens env).1 then
      scheduleBody (req.name.getD "") (req.email.getD "") dateStr serverOffMin now g true
    else
      ⟨.authRequired, [], true⟩

/-! ## Helper lemmas -/

/-- The Sao Paulo offset suffix appended by the normalization. -/
def spOffsetSuffix : List Char := ['-', '0', '3', ':', '0', '0']

theorem spOffsetSuffix_eq_data : "-03:00".data = spOffsetSuffix := rfl

theorem getC_append_of_lt (l m : List Char) (i : Nat) (h : i < l.length) :
    getC (l ++ m) i = getC l i :=
  List.getD_append l m ' ' i h

theorem getC_append_of_le (l m : List Char) (i : Nat) (h : l.length ≤ i) :
    getC (l ++ m) i = getC m (i - l.length) :=
  List.getD_append_right l m ' ' i h

theorem num2_append (l m : List Char) (i : Nat) (h : i + 1 < l.length) :
    num2 (l ++ m) i = num2 l i := by
  unfold num2
  rw [getC_append_of_lt l m i (by omega), getC_append_of_lt l m (i + 1) h]

theorem num4_append (l m : List Char) (i : Nat) (h : i + 3 < l.length) :
    num4 (l ++ m) i = num4 l i := by
  unfold num4
  rw [getC_append_of_lt l m i (by omega), getC_append_of_lt l m (i + 1) (by omega),
    getC_append_of_lt l m (i + 2) (by omega), getC_append_of_lt l m (i + 3) h]

theorem matchesNaive_length (l : List Char) (h : matchesNaive l = true) :
    l.length = 19 := by
  unfold matchesNaive at h
  simp only [Bool.and_eq_true, decide_eq_true_eq] at h
  exact h.1.1.1.1.1.1

/-- Parsing a naive date-time with the Sao Paulo suffix appended takes the
explicit-offset branch at offset `-180`, whatever the server offset is. -/
theorem parse_append_sp (l : List Char) (h : matchesNaive l = true) (off : Int) :
    parseJsDateL (l ++ spOffsetSuffix) off =
      if (dateInRange l && timeInRange l) = true then some (naiveEpochAt l (-180))
      else none := by
  have hl : l.length = 19 := matchesNaive_length l h
  have hlen : (l ++ spOffsetSuffix).length = 25 := by
    simp [hl, spOffsetSuffix]
  have htake : (l ++ spOffsetSuffix).take 19 = l := by
    rw [← hl]; exact List.take_left l spOffsetSuffix
  have hg : ∀ j : Nat, getC (l ++ spOffsetSuffix) (19 + j) = getC spOffsetSuffix j := by
    intro j
    rw [getC_append_of_le l spOffsetSuffix (19 + j) (by omega)]
    congr 1
    omega
  have e19 : getC (l ++ spOffsetSuffix) 19 = '-' := by simpa using hg 0
  have e20 : getC (l ++ spOffsetSuffix) 20 = '0' := by simpa using hg 1
  have e21 : getC (l ++ spOffsetSuffix) 21 = '3' := by simpa using hg 2
  have e22 : getC (l ++ spOffsetSuffix) 22 = ':' := by simpa using hg 3
  have e23 : getC (l ++ spOffsetSuffix) 23 = '0' := by simpa using hg 4
  have e24 : getC (l ++ spOffsetSuffix) 24 = '0' := by simpa using hg 5
  have c1 : matchesDateOnly (l ++ spOffsetSuffix) = false := by
    simp [matchesDateOnly, hlen]
  have c2 : matchesNaive (l ++ spOffsetSuffix) = false := by
    simp [matchesNaive, hlen]
  have c3 : matchesNaiveZ (l ++ spOffsetSuffix) = false := by
    simp [matchesNaiveZ, hlen]
  have c4 : matchesOffsetForm (l ++ spOffsetSuffix) = true := by
    simp [matchesOffsetForm, hlen, htake, h, digitsAt, e19, e20, e21, e22, e23, e24]
  have hdr : dateInRange (l ++ spOffsetSuffix) = dateInRange l := by
    unfold dateInRange
    rw [num2_append l spOffsetSuffix 5 (by omega), num2_append l spOffsetSuffix 8 (by omega)]
  have htr : timeInRange (l ++ spOffsetSuffix) = timeInRange l := by
    unfold timeInRange
    rw [num2_append l spOffsetSuffix 11 (by omega), num2_append l spOffsetSuffix 14 (by omega),
      num2_append l spOffsetSuffix 17 (by omega)]
  have hofr : offsetInRange (l ++ spOffsetSuffix) = true := by
    simp [offsetInRange, num2, e20, e21, e23, e24, digitVal]
  have hoff : offsetOfL (l ++ spOffsetSuffix) = -180 := by
    simp [offsetOfL, num2, e19, e20, e21, e23, e24, digitVal]
  have hnep : naiveEpochAt (l ++ spOffsetSuffix) (-180) = naiveEpochAt l (-180) := by
    unfold naiveEpochAt
    rw [num4_append l spOffsetSuffix 0 (by omega), num2_append l spOffsetSuffix 5 (by omega),
      num2_append l spOffsetSuffix 8 (by omega), num2_append l spOffsetSuffix 11 (by omega),
      num2_append l spOffsetSuffix 14 (by omega), num2_append l spOffsetSuffix 17 (by omega)]
  unfold parseJsDateL
  rw [c1, c2, c3, c4, hdr, htr, hofr, hoff, hnep]
  simp

/-! ## Claim theorems -/

/-- C4: for every schedule `startTime` string that lacks a timezone designator
(i.e. matches the bare local date-time pattern `YYYY-MM-DDTHH:MM:SS`), the
handler appends the fixed operational UTC offset `-03:00`; the resulting
string parses to the same instant whatever the server's local offset is (so it
is never read as UTC or server-local time), namely the instant of its civil
fields at offset `-03:00` (= `-180` minutes). -/
theorem naive_date_normalized_to_sp_offset (s : String)
    (h : matchesNaive s.data = true) :
    normalizeDate s = s ++ "-03:00" ∧
    (∀ off1 off2 : Int,
      parseJsDate (normalizeDate s) off1 = parseJsDate (normalizeDate s) off2) ∧
    (∀ off : Int, (dateInRange s.data && timeInRange s.data) = true →
      parseJsDate (normalizeDate s) off = some (naiveEpochAt s.data (-180))) := by
  have hn : normalizeDate s = s ++ "-03:00" := by simp [normalizeDate, h]
  have key : ∀ off : Int, parseJsDate (normalizeDate s) off =
      if (dateInRange s.data && timeInRange s.data) = true
      then some (naiveEpochAt s.data (-180)) else none := by
    intro off
    rw [hn]
    unfold parseJsDate
    rw [String.data_append, spOffsetSuffix_eq_data]
    exact parse_append_sp s.data h off
  exact ⟨hn, fun o1 o2 => by rw [key o1, key o2], fun off hr => by rw [key off, if_pos hr]⟩

/-- Witness for C4 at the spec's example `2026-01-10T14:00:00` (epoch of
`2026-01-10T17:00:00Z`). -/
theorem naive_date_normalized_to_sp_offset_witness :
    matchesNaive "2026-01-10T14:00:00".data = true ∧
    normalizeDate "2026-01-10T14:00:00" = "2026-01-10T14:00:00" ++ "-03:00" ∧
    parseJsDate (normalizeDate "2026-01-10T14:00:00") 0 = some 1768064400000 := by
  have h := naive_date_normalized_to_sp_offset "2026-01-10T14:00:00" (by decide)
  refine ⟨by decide, h.1, ?_⟩
  rw [h.2.2 0 (by decide)]
  decide

/-- C10: the normalization is gated on the exact naive shape: every string the
regex rejects (already-offset strings, fractional seconds, date-only strings)
passes through unchanged, and normalization is idempotent, so normalizing an
already-normalized (offset-carrying) string is the identity. -/
theorem normalization_exact_shape_gate :
    (∀ s : String, matchesNaive s.data = false → normalizeDate s = s) ∧
    normalizeDate "2026-01-10T14:00:00-03:00" = "2026-01-10T14:00:00-03:00" ∧
    normalizeDate "2026-01-10T14:00:00.500" = "2026-01-10T14:00:00.500" ∧
    normalizeDate "2026-01-10" = "2026-01-10" ∧
    (∀ s : String, normalizeDate (normalizeDate s) = normalizeDate s) := by
  have gate : ∀ s : String, matchesNaive s.data = false → normalizeDate s = s := by
    intro s h
    simp [normalizeDate, h]
  refine ⟨gate, by decide, by decide, by decide, fun s => ?_⟩
  by_cases h : matchesNaive s.data = true
  · have hn : normalizeDate s = s ++ "-03:00" := by simp [normalizeDate, h]
    have hl : s.data.length = 19 := matchesNaive_length s.data h
    have h2 : matchesNaive (normalizeDate s).data = false := by
      rw [hn, String.data_append, spOffsetSuffix_eq_data]
      simp [matchesNaive, hl, spOffsetSuffix]
    exact gate _ h2
  · have h0 : matchesNaive s.data = false := by
      cases hb : matchesNaive s.data
      · rfl
      · exact absurd hb h
    rw [gate s h0, gate s h0]

/-- Witness for C10 on a date-only string. -/
theorem normalization_exact_shape_gate_witness :
    matchesNaive "2026-01-10".data = false ∧ normalizeDate "2026-01-10" = "2026-01-10" :=
  ⟨by decide, normalization_exact_shape_gate.1 "2026-01-10" (by decide)⟩

/-- C5: a schedule request with any of `name`, `email`, `date` missing or
empty (JS-falsy) is answered with ValidationError (400) with no gateway call
and no credential-load attempt. -/
theorem missing_fields_validation_error (req : ScheduleReq) (env : Env)
    (creds0 : Option Creds) (off now : Int) (g : GatewayOracle)
    (h : (falsy req.name || falsy req.email || falsy req.date) = true) :
    schedule req env creds0 off now g =
      ⟨ScheduleResult.validationError, [], false⟩ ∧
    scheduleStatus ScheduleResult.validationError = 400 := by
  constructor
  · unfold schedule
    rw [if_pos h]
  · rfl

/-- Witness for C5: missing `date` field. -/
theorem missing_fields_validation_error_witness :
    (falsy (some "Ana") || falsy (some "ana@x.com") || falsy (none : Option String)) = true ∧
    schedule ⟨some "Ana", some "ana@x.com", none⟩ ⟨none, none⟩ none 0 0
        ⟨Except.ok none, Except.ok "L"⟩ =
      ⟨ScheduleResult.validationError, [], false⟩ :=
  ⟨by decide,
    (missing_fields_validation_error ⟨some "Ana", some "ana@x.com", none⟩ ⟨none, none⟩
      none 0 0 ⟨Except.ok none, Except.ok "L"⟩ (by decide)).1⟩

/-- C2: the claim matches the code's own (dead) 401 branch and the spec, but
the code does not do it. `oauth2Client.credentials` is initialized by the
library to `{}` — an object, hence truthy — so the guard
`if (!oauth2Client.credentials)` at src/index.js 130 and 200 never holds, the
lazy `loadTokens` retry never runs, and with no environment token and no
token file both handlers still issue their `events.list` call; the auth
library's rejection (`noAuthMsg`, no `code`, no `invalid_grant`) lands in the
catch block and the response is ProviderError (500), not AuthRequired (401)
with no gateway call. This theorem evaluates the embedding at that failing
input: fresh client (`none` = the initial `{}`), empty environment, and the
gateway oracle rejecting as the auth library does. -/
theorem no_credentials_gateway_still_called :
    (availability (some "2025-12-25") ⟨none, none⟩ none 0
        (Except.error ⟨none, noAuthMsg⟩)).result =
      AvailResult.providerError ("Error checking availability: " ++ noAuthMsg) ∧
    (availability (some "2025-12-25") ⟨none, none⟩ none 0
        (Except.error ⟨none, noAuthMsg⟩)).calls ≠ [] ∧
    availStatus (availability (some "2025-12-25") ⟨none, none⟩ none 0
        (Except.error ⟨none, noAuthMsg⟩)).result = 500 ∧
    (schedule ⟨some "Ana", some "ana@x.com", some "2026-01-10T14:00:00"⟩ ⟨none, none⟩
        none 0 0 ⟨Except.error ⟨none, noAuthMsg⟩, Except.error ⟨none, noAuthMsg⟩⟩).result =
      ScheduleResult.providerError ("Error contacting Google Calendar: " ++ noAuthMsg) ∧
    (schedule ⟨some "Ana", some "ana@x.com", some "2026-01-10T14:00:00"⟩ ⟨none, none⟩
        none 0 0 ⟨Except.error ⟨none, noAuthMsg⟩, Except.error ⟨none, noAuthMsg⟩⟩).calls ≠ [] ∧
    scheduleStatus (schedule ⟨some "Ana", some "ana@x.com", some "2026-01-10T14:00:00"⟩
        ⟨none, none⟩ none 0 0
        ⟨Except.error ⟨none, noAuthMsg⟩, Except.error ⟨none, noAuthMsg⟩⟩).result = 500 :=
  ⟨by decide, by decide, by decide, by decide, by decide, by decide⟩

/-- C7: credential-load resolution. A truthy environment refresh token is
installed directly and yields `true`, with the token file never consulted (the
result is invariant under changing the file); otherwise a readable, parsable
file is installed and yields `true`, and a missing or corrupt file yields
`false` with nothing installed (the function is total, so no case throws). -/
theorem loadTokens_resolution (env : Env) :
    (∀ tok : String, env.googleRefreshToken = some tok → tok ≠ "" →
      loadTokens env = (some (Creds.envRefresh tok), true) ∧
      ∀ tf, loadTokens ⟨env.googleRefreshToken, tf⟩ = loadTokens env) ∧
    (falsy env.googleRefreshToken = true →
      (∀ t, env.tokenFile = some (some t) →
        loadTokens env = (some (Creds.fileTokens t), true)) ∧
      ((env.tokenFile = none ∨ env.tokenFile = some none) →
        loadTokens env = (none, false))) := by
  constructor
  · intro tok htok hne
    have hf : falsy env.googleRefreshToken = false := by
      simp [htok, falsy, hne]
    constructor
    · unfold loadTokens
      rw [if_neg (by simp [hf]), htok]
      rfl
    · intro tf
      unfold loadTokens
      simp [hf]
  · intro hfalsy
    constructor
    · intro t ht
      unfold loadTokens
      rw [if_pos hfalsy, ht]
    · intro hf
      unfold loadTokens
      rw [if_pos hfalsy]
      rcases hf with h | h <;> rw [h]

/-- Witness for C7: environment token wins; missing file yields false. -/
theorem loadTokens_resolution_witness :
    loadTokens ⟨some "tok", some none⟩ = (some (Creds.envRefresh "tok"), true) ∧
    loadTokens ⟨none, none⟩ = (none, false) :=
  ⟨((loadTokens_resolution ⟨some "tok", some none⟩).1 "tok" rfl (by decide)).1,
    ((loadTokens_resolution ⟨none, none⟩).2 (by decide)).2 (Or.inl rfl)⟩

/-- C9: the availability response maps each provider event to a BusySlot whose
label is the fixed placeholder "Ocupado" — never the event's own title — while
start and end are taken from the event (`dateTime || date` on each end). -/
theorem busy_slots_fixed_label (d : String) (env : Env) (c : Creds) (off t : Int)
    (items : List ProviderEvent)
    (hd : d ≠ "") (hp : parseJsDateL d.data off = some t) :
    (availability (some d) env (some c) off (Except.ok (some items))).result =
      AvailResult.ok (items.map busySlotOf) ∧
    (∀ e ∈ items, (busySlotOf e).summary = "Ocupado" ∧
      (busySlotOf e).start = jsOr e.start.dateTime e.start.date ∧
      (busySlotOf e).endTime = jsOr e.endTime.dateTime e.endTime.date ∧
      (e.summary ≠ "Ocupado" → (busySlotOf e).summary ≠ e.summary)) := by
  constructor
  · simp [availability, availabilityBody, credsObjTruthy, falsy, hd, hp]
  · intro e _
    exact ⟨rfl, rfl, rfl, fun hne hc => hne hc.symm⟩

/-- Witness for C9: one event titled "Reunião" becomes an "Ocupado" slot. -/
theorem busy_slots_fixed_label_witness :
    parseJsDateL "2025-12-25".data 0 = some 1766620800000 ∧
    (availability (some "2025-12-25") ⟨none, none⟩ (some (Creds.envRefresh "tok")) 0
        (Except.ok (some [⟨"Reunião", ⟨some "a", none⟩, ⟨none, some "b"⟩⟩]))).result =
      AvailResult.ok [⟨some "a", some "b", "Ocupado"⟩] := by
  have h := busy_slots_fixed_label "2025-12-25" ⟨none, none⟩ (Creds.envRefresh "tok") 0
    1766620800000 [⟨"Reunião", ⟨some "a", none⟩, ⟨none, some "b"⟩⟩] (by decide) (by decide)
  refine ⟨by decide, ?_⟩
  rw [h.1]
  decide

/-- C3: a schedule request whose conflict check returns at least one event in
the [startTime, startTime + 60 min] window is answered with Conflict (409),
and the only gateway call made is the `events.list` conflict check — no
insert is performed. -/
theorem conflict_prevents_insert (name email d : String) (env : Env) (c : Creds)
    (off now t : Int) (g : GatewayOracle) (items : List ProviderEvent)
    (hn : name ≠ "") (he : email ≠ "") (hd : d ≠ "")
    (hp : parseJsDateL (normalizeDate d).data off = some t)
    (hl : g.listResult = Except.ok (some items)) (hne : items ≠ []) :
    schedule ⟨some name, some email, some d⟩ env (some c) off now g =
      ⟨ScheduleResult.conflict,
        [GatewayCall.eventsList "primary" t (t + 60 * 60 * 1000)
          "America/Sao_Paulo" true none], false⟩ ∧
    (∀ call ∈ (schedule ⟨some name, some email, some d⟩ env (some c) off now g).calls,
      call.isInsert = false) ∧
    scheduleStatus ScheduleResult.conflict = 409 := by
  have hlen : 0 < items.length := List.length_pos.mpr hne
  have heq : schedule ⟨some name, some email, some d⟩ env (some c) off now g =
      ⟨ScheduleResult.conflict,
        [GatewayCall.eventsList "primary" t (t + 60 * 60 * 1000)
          "America/Sao_Paulo" true none], false⟩ := by
    simp [schedule, scheduleBody, credsObjTruthy, falsy, hn, he, hd, hp, hl,
      itemsNonempty, hlen]
  refine ⟨heq, ?_, rfl⟩
  rw [heq]
  intro call hc
  cases List.mem_singleton.mp hc
  rfl

/-- Witness for C3: a booked window yields Conflict with a single list call. -/
theorem conflict_prevents_insert_witness :
    parseJsDateL (normalizeDate "2026-01-10T14:00:00").data 0 = some 1768064400000 ∧
    schedule ⟨some "Ana", some "ana@x.com", some "2026-01-10T14:00:00"⟩ ⟨none, none⟩
        (some (Creds.envRefresh "tok")) 0 0
        ⟨Except.ok (some [⟨"x", ⟨none, none⟩, ⟨none, none⟩⟩]), Except.ok "L"⟩ =
      ⟨ScheduleResult.conflict,
        [GatewayCall.eventsList "primary" 1768064400000 (1768064400000 + 60 * 60 * 1000)
          "America/Sao_Paulo" true none], false⟩ := by
  have h := conflict_prevents_insert "Ana" "ana@x.com" "2026-01-10T14:00:00" ⟨none, none⟩
    (Creds.envRefresh "tok") 0 0 1768064400000
    ⟨Except.ok (some [⟨"x", ⟨none, none⟩, ⟨none, none⟩⟩]), Except.ok "L"⟩
    [⟨"x", ⟨none, none⟩, ⟨none, none⟩⟩]
    (by decide) (by decide) (by decide) (by decide) rfl (by decide)
  exact ⟨by decide, h.1⟩

/-- C8: when a gateway call fails during a schedule run (either the conflict
`events.list` or the `events.insert`), the handler answers AuthExpired (401)
exactly when the error carries provider status 401 or an "invalid_grant"
message, and otherwise ProviderError (500) carrying the underlying message;
the handler is a total function, so no gateway failure escapes it. -/
theorem gateway_error_mapping (name email d : String) (env : Env) (c : Creds)
    (off now t : Int) (g : GatewayOracle) (e : ApiError)
    (hn : name ≠ "") (he : email ≠ "") (hd : d ≠ "")
    (hp : parseJsDateL (normalizeDate d).data off = some t)
    (hfail : g.listResult = Except.error e ∨
      ((g.listResult = Except.ok none ∨ g.listResult = Except.ok (some [])) ∧
        g.insertResult = Except.error e)) :
    (schedule ⟨some name, some email, some d⟩ env (some c) off now g).result =
      mapCatch e ∧
    ((schedule ⟨some name, some email, some d⟩ env (some c) off now g).result =
        ScheduleResult.authExpired ↔
      (e.code = some 401 ∨ includesStr e.message "invalid_grant" = true)) ∧
    (¬(e.code = some 401 ∨ includesStr e.message "invalid_grant" = true) →
      (schedule ⟨some name, some email, some d⟩ env (some c) off now g).result =
        ScheduleResult.providerError ("Error contacting Google Calendar: " ++ e.message)) ∧
    scheduleStatus ScheduleResult.authExpired = 401 ∧
    scheduleStatus (ScheduleResult.providerError
      ("Error contacting Google Calendar: " ++ e.message)) = 500 := by
  have hres : (schedule ⟨some name, some email, some d⟩ env (some c) off now g).result =
      mapCatch e := by
    rcases hfail with h | ⟨hl, hi⟩
    · simp [schedule, scheduleBody, credsObjTruthy, falsy, hn, he, hd, hp, h]
    · rcases hl with hl | hl <;>
        simp [schedule, scheduleBody, credsObjTruthy, falsy, hn, he, hd, hp, hl, hi,
          itemsNonempty]
  have hig : mapCatch e = ScheduleResult.authExpired ↔
      (e.code = some 401 ∨ includesStr e.message "invalid_grant" = true) := by
    unfold mapCatch
    constructor
    · intro hcase
      by_cases hb : isInvalidGrant e = true
      · simpa [isInvalidGrant] using hb
      · rw [if_neg hb] at hcase
        simp at hcase
    · intro hor
      have hb : isInvalidGrant e = true := by
        simpa [isInvalidGrant] using hor
      rw [if_pos hb]
  refine ⟨hres, by rw [hres]; exact hig, fun hnot => ?_, rfl, rfl⟩
  have h1 : ¬ e.code = some 401 := fun hc => hnot (Or.inl hc)
  have h2 : includesStr e.message "invalid_grant" = false := by
    cases hb : includesStr e.message "invalid_grant"
    · rfl
    · exact absurd (Or.inr hb) hnot
  have hnb : isInvalidGrant e = false := by
    simp [isInvalidGrant, h1, h2]
  rw [hres]
  unfold mapCatch
  rw [hnb]
  simp

/-- Witness for C8: a 500-style gateway failure maps to ProviderError. -/
theorem gateway_error_mapping_witness :
    (schedule ⟨some "Ana", some "ana@x.com", some "2026-01-10T14:00:00"⟩ ⟨none, none⟩
        (some (Creds.envRefresh "tok")) 0 0
        ⟨Except.error ⟨none, "boom"⟩, Except.ok "L"⟩).result =
      ScheduleResult.providerError ("Error contacting Google Calendar: " ++ "boom") := by
  have h := gateway_error_mapping "Ana" "ana@x.com" "2026-01-10T14:00:00" ⟨none, none⟩
    (Creds.envRefresh "tok") 0 0 1768064400000
    ⟨Except.error ⟨none, "boom"⟩, Except.ok "L"⟩ ⟨none, "boom"⟩
    (by decide) (by decide) (by decide) (by decide) (Or.inl rfl)
  exact h.2.2.1 (by decide)

/-- C6: every successful schedule run issued exactly the conflict-check list
call followed by one `events.insert` with conference-data version 1 and
`sendUpdates = "all"` (attendee notifications), whose event ends exactly 60
minutes after it starts, has defaults disabled with exactly an email reminder
1440 minutes prior and a popup reminder 10 minutes prior, lists the
requester's email as the only attendee, and requests a conferencing link. -/
theorem successful_schedule_event_shape (req : ScheduleReq) (env : Env)
    (creds0 : Option Creds) (off now : Int) (g : GatewayOracle) (link : String)
    (h : (schedule req env creds0 off now g).result = ScheduleResult.ok link) :
    ∃ startMs : Int, ∃ ev : EventResource,
      (schedule req env creds0 off now g).calls =
        [GatewayCall.eventsList "primary" startMs (startMs + 60 * 60 * 1000)
            "America/Sao_Paulo" true none,
          GatewayCall.eventsInsert "primary" ev 1 "all"] ∧
      ev.startDateTime = startMs ∧
      ev.endDateTime = startMs + 60 * 60 * 1000 ∧
      ev.remindersUseDefault = false ∧
      ev.remindersOverrides = [⟨"email", 1440⟩, ⟨"popup", 10⟩] ∧
      ev.attendees = [req.email.getD ""] ∧
      ev.conferenceSolutionKeyType = "hangoutsMeet" ∧
      ev.conferenceRequestId = "meet-" ++ toString now := by
  revert h
  simp only [schedule, scheduleBody]
  repeat' split
  all_goals intro h
  all_goals
    first
      | (refine ⟨_, _, rfl, ?_, ?_, ?_, ?_, ?_, ?_, ?_⟩ <;> simp [buildEvent])
      | (exfalso; simp at h; done)
      | (exfalso; revert h; unfold mapCatch; split <;> (intro h; simp at h))

/-- Witness for C6: a clean run inserts the fully specified one-hour event. -/
theorem successful_schedule_event_shape_witness :
    (schedule ⟨some "Ana", some "ana@x.com", some "2026-01-10T14:00:00"⟩ ⟨none, none⟩
        (some (Creds.envRefresh "tok")) 0 0
        ⟨Except.ok (some []), Except.ok "L"⟩).result = ScheduleResult.ok "L" ∧
    (∃ startMs : Int, ∃ ev : EventResource,
      (schedule ⟨some "Ana", some "ana@x.com", some "2026-01-10T14:00:00"⟩ ⟨none, none⟩
          (some (Creds.envRefresh "tok")) 0 0
          ⟨Except.ok (some []), Except.ok "L"⟩).calls =
        [GatewayCall.eventsList "primary" startMs (startMs + 60 * 60 * 1000)
            "America/Sao_Paulo" true none,
          GatewayCall.eventsInsert "primary" ev 1 "all"] ∧
      ev.startDateTime = startMs ∧
      ev.endDateTime = startMs + 60 * 60 * 1000 ∧
      ev.remindersUseDefault = false ∧
      ev.remindersOverrides = [⟨"email", 1440⟩, ⟨"popup", 10⟩] ∧
      ev.attendees = [(some "ana@x.com").getD ""] ∧
      ev.conferenceSolutionKeyType = "hangoutsMeet" ∧
      ev.conferenceRequestId = "meet-" ++ toString (0 : Int)) :=
  ⟨by decide,
    successful_schedule_event_shape ⟨some "Ana", some "ana@x.com", some "2026-01-10T14:00:00"⟩
      ⟨none, none⟩ (some (Creds.envRefresh "tok")) 0 0
      ⟨Except.ok (some []), Except.ok "L"⟩ "L" (by decide)⟩

/-- C1 counterexample: the claim fails on the code. For `date = "2025-12-25"`
on a server whose local clock is UTC (offset 0), the queried window starts at
epoch ms 1766620800000 (= 2025-12-25T00:00:00Z), while 00:00:00.000 of
2025-12-25 in America/Sao_Paulo (UTC-03:00) is epoch ms 1766631600000
(= 2025-12-25T03:00:00Z); moreover the window changes when only the server's
local offset changes (0 vs -180 minutes), so it is not independent of the
server's local timezone. -/
theorem availability_window_not_sao_paulo_midnight :
    (availability (some "2025-12-25") ⟨none, none⟩ (some (Creds.envRefresh "tok")) 0
        (Except.ok (some []))).calls =
      [GatewayCall.eventsList "primary" 1766620800000 1766707199999
          "America/Sao_Paulo" true (some "startTime")] ∧
    daysFromCivil 2025 12 25 * 86400000 + 10800000 = 1766631600000 ∧
    (1766620800000 : Int) ≠ 1766631600000 ∧
    (availability (some "2025-12-25") ⟨none, none⟩ (some (Creds.envRefresh "tok")) 0
        (Except.ok (some []))).calls ≠
      (availability (some "2025-12-25") ⟨none, none⟩ (some (Creds.envRefresh "tok")) (-180)
        (Except.ok (some []))).calls :=
  ⟨by decide, by decide, by decide, by decide⟩

/-- C1 amended: the queried day window is the [00:00:00.000, 23:59:59.999]
span of the parsed date's civil day in the SERVER's local timezone — a
local-midnight-aligned span of 86,399,999 ms containing the parsed instant —
not in the fixed operational timezone; America/Sao_Paulo is forwarded to the
gateway only as the `timeZone` formatting parameter of the query, so the
window coincides with the Sao Paulo day only when the server's offset is
-03:00. -/
theorem availability_window_server_local_day (d : String) (env : Env) (c : Creds)
    (off t : Int) (lr : Except ApiError (Option (List ProviderEvent)))
    (hd : d ≠ "") (hp : parseJsDateL d.data off = some t) :
    ∃ tmin : Int,
      (availability (some d) env (some c) off lr).calls =
        [GatewayCall.eventsList "primary" tmin (tmin + 86399999)
            "America/Sao_Paulo" true (some "startTime")] ∧
      (tmin + off * 60000) % 86400000 = 0 ∧
      tmin ≤ t ∧ t ≤ tmin + 86399999 := by
  have hmax : setHoursLocal t off 23 59 59 999 = setHoursLocal t off 0 0 0 0 + 86399999 := by
    simp only [setHoursLocal]
    ring
  have hcalls : (availability (some d) env (some c) off lr).calls =
      [GatewayCall.eventsList "primary" (setHoursLocal t off 0 0 0 0)
        (setHoursLocal t off 0 0 0 0 + 86399999) "America/Sao_Paulo" true (some "startTime")] := by
    cases lr <;> simp [availability, availabilityBody, credsObjTruthy, falsy, hd, hp, hmax]
  have hmod : (setHoursLocal t off 0 0 0 0 + off * 60000) % 86400000 = 0 := by
    have h1 : setHoursLocal t off 0 0 0 0 + off * 60000 =
        86400000 * ((t + off * 60000) / 86400000) := by
      have h2 := Int.ediv_add_emod (t + off * 60000) 86400000
      simp only [setHoursLocal]
      omega
    rw [h1]
    exact Int.mul_emod_right _ _
  refine ⟨setHoursLocal t off 0 0 0 0, hcalls, hmod, ?_, ?_⟩ <;>
    (simp only [setHoursLocal]; omega)

/-- Witness for the amended C1, on a UTC server and the date 2025-12-25. -/
theorem availability_window_server_local_day_witness :
    parseJsDateL "2025-12-25".data 0 = some 1766620800000 ∧
    (∃ tmin : Int,
      (availability (some "2025-12-25") ⟨none, none⟩ (some (Creds.envRefresh "tok")) 0
          (Except.ok (some []))).calls =
        [GatewayCall.eventsList "primary" tmin (tmin + 86399999)
            "America/Sao_Paulo" true (some "startTime")] ∧
      (tmin + 0 * 60000) % 86400000 = 0 ∧
      tmin ≤ 1766620800000 ∧ (1766620800000 : Int) ≤ tmin + 86399999) :=
  ⟨by decide,
    availability_window_server_local_day "2025-12-25" ⟨none, none⟩ (Creds.envRefresh "tok")
      0 1766620800000 (Except.ok (some [])) (by decide) (by decide)⟩

end Playlix
